import Mathlib

/-!
Verification of the BigSQS oversize-payload adapter
(`src/big_sqs/big_sqs_client.py`) against its natural-language specification,
via a shallow embedding.

Modelling conventions for the external collaborators (boto3 SQS/S3 clients,
`json`, `hashlib.md5`, `uuid4`), which are library code outside this
repository:

* the SQS queue and the S3 object store are explicit state (`World`), and
  every request the adapter issues to them is recorded, in order, as an
  `Event` in `World.events`;
* `json.loads` and the MD5 hex digest are opaque function parameters
  (`Prims`); `json.dumps` is embedded concretely (`dumps`) because the
  pointer wire format produced by `send_message` depends on its exact output;
* each `uuid4()` drawn by an operation is supplied as a fresh-identifier
  input to that operation, and the receipt handles minted by the queue
  service on delivery are supplied as inputs to `receive_messages`;
* an underlying client call that fails (raises) is modelled by an
  `Option TransportErr` input; a `some e` outcome makes the operation
  propagate `Except.error e` exactly where the Python exception would
  propagate, leaving the state accumulated so far in place;
* the `ResponseMetadata` content-length bookkeeping in `receive_messages`
  (transport metadata the spec itself calls "bookkeeping only, not used for
  correctness elsewhere") is not modelled.
-/

namespace BigSqs

/-- Values produced by parsing a message body as structured data (Python
`json.loads`). Numbers are restricted to integers: no adapter code path
inspects a numeric value, so the float/int distinction is irrelevant here. -/
inductive Json where
  | str : String → Json
  | num : Int → Json
  | bool : Bool → Json
  | null : Json
  | arr : List Json → Json
  | obj : List (String × Json) → Json

/-- One hexadecimal digit, lower case, as produced by Python. -/
def hexDigit (n : Nat) : Char :=
  if n < 10 then Char.ofNat (48 + n) else Char.ofNat (87 + n)

/-- Four-digit hexadecimal rendering of a 16-bit value (for \u escapes). -/
def u16hex (n : Nat) : String :=
  String.mk [hexDigit (n / 4096 % 16), hexDigit (n / 256 % 16),
             hexDigit (n / 16 % 16), hexDigit (n % 16)]

/-- Escaping of a single character inside a JSON string literal, following
Python `json.dumps` with its default `ensure_ascii=True`: printable ASCII
other than quote and backslash is literal, the short escapes are used for
the usual control characters, everything else becomes \uXXXX (with a
surrogate pair above the BMP). -/
def escapeChar (c : Char) : String :=
  if c = '"' then "\\\""
  else if c = '\\' then "\\\\"
  else if c = Char.ofNat 8 then "\\b"
  else if c = Char.ofNat 9 then "\\t"
  else if c = Char.ofNat 10 then "\\n"
  else if c = Char.ofNat 12 then "\\f"
  else if c = Char.ofNat 13 then "\\r"
  else if 32 ≤ c.toNat && c.toNat ≤ 126 then String.singleton c
  else if c.toNat < 65536 then "\\u" ++ u16hex c.toNat
  else
    "\\u" ++ u16hex (55296 + (c.toNat - 65536) / 1024) ++
    "\\u" ++ u16hex (56320 + (c.toNat - 65536) % 1024)

/-- Body of a JSON string literal: every character escaped as above. -/
def escapeString (s : String) : String :=
  String.join (s.data.map escapeChar)

mutual

/-- Python `json.dumps` with default options: ", " between sequence items
and dictionary entries, ": " after keys, ASCII-escaped string literals. -/
def dumps : Json → String
  | Json.str s => "\"" ++ escapeString s ++ "\""
  | Json.num n => toString n
  | Json.bool b => if b then "true" else "false"
  | Json.null => "null"
  | Json.arr xs => "[" ++ String.intercalate ", " (dumpsList xs) ++ "]"
  | Json.obj kvs => "\x7b" ++ String.intercalate ", " (dumpsObj kvs) ++ "\x7d"

/-- Serialization of the items of a JSON array. -/
def dumpsList : List Json → List String
  | [] => []
  | x :: xs => dumps x :: dumpsList xs

/-- Serialization of the entries of a JSON object. -/
def dumpsObj : List (String × Json) → List String
  | [] => []
  | (k, v) :: kvs => ("\"" ++ escapeString k ++ "\": " ++ dumps v) :: dumpsObj kvs

end

/-- A failure raised by an underlying queue / blob-store client call
(network, auth, missing object, parameter validation, ...). The adapter
never inspects it; it propagates unchanged. -/
inductive TransportErr where
  | err : String → TransportErr
deriving DecidableEq

/-- One request issued by the adapter to an external collaborator, with the
arguments the adapter passed. -/
inductive Event where
  | s3Put (bucket key body contentType : String)
  | s3Get (bucket key : String)
  | s3Delete (bucket key : String)
  | sqsSend (queueUrl dedupId groupId : String)
      (attrs : List (String × String)) (body : String)
  | sqsReceive (queueUrl : String) (maxN : Nat)
      (attrNames : List String) (waitSeconds : Nat)
  | sqsDelete (queueUrl receiptHandle : String)
deriving DecidableEq

/-- A message as stored by the queue service after a successful send. -/
structure QueueEntry where
  dedupId : String
  groupId : String
  attrs : List (String × String)
  body : String
deriving DecidableEq

/-- A delivered message, as it appears in an SQS receive response
(`{'Body': ..., 'ReceiptHandle': ..., 'MD5OfBody': ..., ...}`). -/
structure Message where
  body : String
  receiptHandle : String
  md5OfBody : String
  attrs : List (String × String)
deriving DecidableEq

/-- The state of the external services plus the trace of requests issued. -/
structure World where
  s3Objects : List (String × String × String)
  queue : List QueueEntry
  events : List Event

/-- The queue service's acknowledgement of a send. -/
structure SendAck where
  dedupId : String
  md5OfMessageBody : String
deriving DecidableEq

/-- The opaque library primitives: the structured-data parser
(`json.loads`, with `none` standing for a raised `JSONDecodeError`) and the
MD5 hex digest of a text's UTF-8 bytes (`hashlib.md5(...).hexdigest()`). -/
structure Prims where
  loads : String → Option Json
  md5hex : String → String

/-- The adapter's own state: its configuration and the mutable
`_receipt_handle_lookup` table. An entry maps a receipt handle to the raw
`s3BucketName` / `s3Key` values extracted from the received pointer record
(Python stores them unchecked, so they are kept as `Json` here). A Python
dict assignment is modelled by consing at the front; `lookupHandle` reads
the most recent entry, matching dict overwrite semantics. -/
structure BigSqsClient where
  queue_url : String
  bucket_name : String
  size_threshold : Nat
  receipt_handle_lookup : List (String × Json × Json)

/-- The maximum message size supported by SQS in bytes. -/
def MAX_SQS_MESSAGE_SIZE : Nat := 262144

/-- Gets the length of a string in bytes, when encoded as UTF-8. -/
def utf8len (message : String) : Nat :=
  message.utf8ByteSize

/-- S3 `put_object`: the newest object under a (bucket, key) shadows older
ones. -/
def putObj (objects : List (String × String × String))
    (bucket key body : String) : List (String × String × String) :=
  (bucket, key, body) :: objects

/-- S3 `get_object`: first (most recent) object under the (bucket, key). -/
def findObj : List (String × String × String) → String → String → Option String
  | [], _, _ => none
  | (b, k, v) :: rest, bucket, key =>
    if b = bucket ∧ k = key then some v else findObj rest bucket key

/-- S3 `delete_object`: removes every object stored under the (bucket, key). -/
def removeObj : List (String × String × String) → String → String →
    List (String × String × String)
  | [], _, _ => []
  | (b, k, v) :: rest, bucket, key =>
    if b = bucket ∧ k = key then removeObj rest bucket key
    else (b, k, v) :: removeObj rest bucket key

/-- Reading the binding table: most recent entry for the handle wins. -/
def lookupHandle : List (String × Json × Json) → String → Option (Json × Json)
  | [], _ => none
  | (h, b, k) :: rest, handle =>
    if h = handle then some (b, k) else lookupHandle rest handle

/-- The pointer record substituted for an oversize payload:
`['com.amazon.sqs.javamessaging.MessageS3Pointer',
  ⟨'s3BucketName': bucket, 's3Key': key⟩]`. -/
def s3PointerJson (bucket key : String) : Json :=
  Json.arr [Json.str "com.amazon.sqs.javamessaging.MessageS3Pointer",
            Json.obj [("s3BucketName", Json.str bucket),
                      ("s3Key", Json.str key)]]

/-- Python equality between a parsed JSON value and a string literal
(`parsed_body[0] == '...'`): true exactly when the value is that string. -/
def jsonEqStr : Json → String → Bool
  | Json.str s, t => s = t
  | _, _ => false

/-- Python key membership in a parsed JSON object (`'...' in parsed_body[1]`).
Objects produced by `json.loads` have unique keys (later duplicates
overwrite earlier ones during parsing). -/
def hasKey (kvs : List (String × Json)) (key : String) : Bool :=
  kvs.any (fun kv => kv.1 = key)

/-- Python indexing into a parsed JSON object (`parsed_body[1]['...']`). -/
def dictGet (kvs : List (String × Json)) (key : String) : Option Json :=
  (kvs.find? (fun kv => kv.1 = key)).map (fun kv => kv.2)

/-- boto3 requires `Bucket` / `Key` parameters to be strings; any other
value raises a parameter-validation error before a request is issued. -/
def s3Str : Json → Option String
  | Json.str s => some s
  | _ => none

/-- `BigSqsClient.send_message`. Embedding of the Python method:
`payload_id` is the `str(uuid4())` it draws, `fresh_group_id` the second
`str(uuid4())` used only when the caller supplies no group id, and
`sqsFail` the outcome of the underlying `sqs.send_message` call. The
returned world carries the blob write (iff oversize) and the enqueue. -/
def send_message (prims : Prims) (c : BigSqsClient) (w : World)
    (payload_id fresh_group_id : String) (sqsFail : Option TransportErr)
    (message : String) (attributes : Option (List (String × String)))
    (message_group_id : Option String) :
    World × Except TransportErr SendAck :=
  let big := utf8len message > c.size_threshold
  let w1 :=
    if big then
      { w with
        s3Objects := putObj w.s3Objects c.bucket_name payload_id message,
        events := w.events ++
          [Event.s3Put c.bucket_name payload_id message "text/plain"] }
    else w
  let payload :=
    if big then dumps (s3PointerJson c.bucket_name payload_id) else message
  let groupId := message_group_id.getD fresh_group_id
  let attrs := attributes.getD []
  let w2 := { w1 with events := w1.events ++
    [Event.sqsSend c.queue_url payload_id groupId attrs payload] }
  match sqsFail with
  | some e => (w2, Except.error e)
  | none =>
    ({ w2 with queue := w2.queue ++ [⟨payload_id, groupId, attrs, payload⟩] },
     Except.ok ⟨payload_id, prims.md5hex payload⟩)

/-- One element of the `messages` list passed to `send_messages`, bundled
with the per-item environment (`uuid4` draws and the underlying SQS call's
outcome) that `send_message` consumes for it. -/
structure SendItem where
  message : String
  attributes : Option (List (String × String))
  message_group_id : Option String
  payload_id : String
  fresh_group_id : String
  sqsFail : Option TransportErr

/-- `BigSqsClient.send_messages`, i.e.
`list(map(lambda m: self.send_message(*m), messages))`: items are sent in
order; the first raised error propagates at once, discarding the
acknowledgements gathered so far and leaving later items unattempted. -/
def send_messages (prims : Prims) (c : BigSqsClient) :
    World → List SendItem → World × Except TransportErr (List SendAck)
  | w, [] => (w, Except.ok [])
  | w, it :: rest =>
    match send_message prims c w it.payload_id it.fresh_group_id it.sqsFail
        it.message it.attributes it.message_group_id with
    | (w1, Except.error e) => (w1, Except.error e)
    | (w1, Except.ok ack) =>
      match send_messages prims c w1 rest with
      | (w2, Except.error e) => (w2, Except.error e)
      | (w2, Except.ok acks) => (w2, Except.ok (ack :: acks))

/-- `BigSqsClient.is_s3_pointer`: parse the body, then require a 2-list
whose head equals the Java type-tag constant and whose second element is a
dict containing both the `s3BucketName` and `s3Key` keys; a parse failure
(`loads` returning `none`, Python's caught `JSONDecodeError`) yields false. -/
def is_s3_pointer (prims : Prims) (message : Message) : Bool :=
  match prims.loads message.body with
  | some (Json.arr [e0, e1]) =>
    jsonEqStr e0 "com.amazon.sqs.javamessaging.MessageS3Pointer" &&
    (match e1 with
     | Json.obj kvs => hasKey kvs "s3BucketName" && hasKey kvs "s3Key"
     | _ => false)
  | some _ => false
  | none => false

/-- The per-message loop of `receive_messages`: non-pointer messages pass
through; for a pointer the binding is recorded first, then the blob is
fetched and the body and MD5 hash overwritten. Error branches follow the
Python control flow: a non-string bucket/key fails boto3 parameter
validation after the binding was already recorded and before any request
is issued; a missing object raises out of `get_object` after the request.
The `KeyError` branches are unreachable when `is_s3_pointer` held. -/
def resolvePointers (prims : Prims) :
    BigSqsClient → World → List Message → List Message →
    BigSqsClient × World × Except TransportErr (List Message)
  | c, w, [], acc => (c, w, Except.ok acc.reverse)
  | c, w, message :: rest, acc =>
    if is_s3_pointer prims message then
      match prims.loads message.body with
      | some (Json.arr [_, Json.obj kvs]) =>
        match dictGet kvs "s3BucketName", dictGet kvs "s3Key" with
        | some bname, some bkey =>
          let c1 := { c with receipt_handle_lookup :=
            (message.receiptHandle, bname, bkey) :: c.receipt_handle_lookup }
          match s3Str bname, s3Str bkey with
          | some bucket, some key =>
            let w1 := { w with events := w.events ++ [Event.s3Get bucket key] }
            match findObj w.s3Objects bucket key with
            | some content =>
              resolvePointers prims c1 w1 rest
                ({ message with
                      body := content,
                      md5OfBody := prims.md5hex content } :: acc)
            | none => (c1, w1, Except.error (TransportErr.err "NoSuchKey"))
          | _, _ =>
            (c1, w, Except.error (TransportErr.err "ParamValidationError"))
        | _, _ => (c, w, Except.error (TransportErr.err "KeyError"))
      | _ => (c, w, Except.error (TransportErr.err "KeyError"))
    else
      resolvePointers prims c w rest (message :: acc)

/-- `BigSqsClient.receive_messages`: poll the queue (modelled as delivering
up to `max_number_of_messages` entries from the front, each paired with a
service-minted receipt handle from `handles`, its MD5OfBody computed by the
service), then resolve pointers in place. -/
def receive_messages (prims : Prims) (c : BigSqsClient) (w : World)
    (max_number_of_messages : Nat) (attributes : Option (List String))
    (handles : List String) :
    BigSqsClient × World × Except TransportErr (List Message) :=
  let attrNames := attributes.getD ["All"]
  let delivered := List.zipWith
    (fun (e : QueueEntry) (h : String) =>
      ({ body := e.body, receiptHandle := h,
         md5OfBody := prims.md5hex e.body, attrs := e.attrs } : Message))
    (w.queue.take max_number_of_messages) handles
  let w0 := { w with events := w.events ++
    [Event.sqsReceive c.queue_url max_number_of_messages attrNames 20] }
  resolvePointers prims c w0 delivered []

/-- `BigSqsClient.delete_message`: the queue delete is issued first
(`sqsFail` is its outcome; on failure the exception propagates before the
lookup). On success, a bound handle additionally triggers the blob delete
at the recorded location; the binding entry itself is never removed. -/
def delete_message (c : BigSqsClient) (w : World)
    (sqsFail : Option TransportErr) (receipt_handle : String) :
    BigSqsClient × World × Except TransportErr Unit :=
  let w0 := { w with events := w.events ++
    [Event.sqsDelete c.queue_url receipt_handle] }
  match sqsFail with
  | some e => (c, w0, Except.error e)
  | none =>
    match lookupHandle c.receipt_handle_lookup receipt_handle with
    | some (bname, bkey) =>
      match s3Str bname, s3Str bkey with
      | some bucket, some key =>
        (c,
         { w0 with
              events := w0.events ++ [Event.s3Delete bucket key],
              s3Objects := removeObj w0.s3Objects bucket key },
         Except.ok ())
      | _, _ => (c, w0, Except.error (TransportErr.err "ParamValidationError"))
    | none => (c, w0, Except.ok ())

/-! Example fixtures used by witness theorems. -/

/-- A pointer record to the configured bucket, as `send_message` creates. -/
def examplePtr : Json := s3PointerJson "mybucket" "id-1"

/-- Example primitives: a parser that recognizes the serialized
`examplePtr` and a toy stand-in for the MD5 hex digest. -/
def examplePrims : Prims :=
  ⟨fun s => if s = dumps examplePtr then some examplePtr else none,
   fun s => "md5:" ++ s⟩

/-- Example adapter configuration with a 10-byte threshold. -/
def exampleClient : BigSqsClient := ⟨"qurl", "mybucket", 10, []⟩

/-- Example initial world: empty store, empty queue, empty trace. -/
def exampleWorld : World := ⟨[], [], []⟩

/-- C1: for a payload whose UTF-8 byte length exceeds the threshold,
`send_message` issues exactly one blob-store put — body the payload,
bucket the configured one, content-type text/plain, key the freshly drawn
identifier — followed by exactly one enqueue whose body is the serialized
pointer record referencing that bucket and key, and whose deduplication id
is that same identifier. -/
theorem send_oversize_externalizes (prims : Prims) (c : BigSqsClient)
    (w : World) (payload_id fresh_group_id message : String)
    (attributes : Option (List (String × String)))
    (message_group_id : Option String)
    (hbig : utf8len message > c.size_threshold) :
    (send_message prims c w payload_id fresh_group_id none message
        attributes message_group_id).1.events
      = w.events ++
        [Event.s3Put c.bucket_name payload_id message "text/plain",
         Event.sqsSend c.queue_url payload_id
           (message_group_id.getD fresh_group_id) (attributes.getD [])
           (dumps (s3PointerJson c.bucket_name payload_id))] := by
  simp [send_message, hbig]

/-- Witness for C1: threshold 10, payload "hello world!" (12 bytes). -/
theorem send_oversize_externalizes_witness :
    utf8len "hello world!" > exampleClient.size_threshold ∧
    (send_message examplePrims exampleClient exampleWorld "id-1" "g-1" none
        "hello world!" none none).1.events
      = exampleWorld.events ++
        [Event.s3Put "mybucket" "id-1" "hello world!" "text/plain",
         Event.sqsSend "qurl" "id-1" "g-1" []
           (dumps (s3PointerJson "mybucket" "id-1"))] :=
  ⟨by decide,
   send_oversize_externalizes examplePrims exampleClient exampleWorld
     "id-1" "g-1" "hello world!" none none (by decide)⟩

/-- C2: for a payload whose UTF-8 byte length is at most the threshold,
`send_message` enqueues the payload byte-for-byte as the message body and
issues no blob-store request at all (the only request is the enqueue, and
the store is untouched). -/
theorem send_small_verbatim (prims : Prims) (c : BigSqsClient) (w : World)
    (payload_id fresh_group_id message : String)
    (attributes : Option (List (String × String)))
    (message_group_id : Option String)
    (hsmall : utf8len message ≤ c.size_threshold) :
    (send_message prims c w payload_id fresh_group_id none message
        attributes message_group_id).1.events
      = w.events ++
        [Event.sqsSend c.queue_url payload_id
          (message_group_id.getD fresh_group_id) (attributes.getD [])
          message] ∧
    (send_message prims c w payload_id fresh_group_id none message
        attributes message_group_id).1.s3Objects = w.s3Objects := by
  have hn : ¬ (utf8len message > c.size_threshold) := not_lt.mpr hsmall
  simp [send_message, hn]

/-- Witness for C2: threshold 10, payload "hello" (5 bytes). -/
theorem send_small_verbatim_witness :
    utf8len "hello" ≤ exampleClient.size_threshold ∧
    ((send_message examplePrims exampleClient exampleWorld "id-1" "g-1" none
        "hello" none none).1.events
      = exampleWorld.events ++ [Event.sqsSend "qurl" "id-1" "g-1" [] "hello"] ∧
     (send_message examplePrims exampleClient exampleWorld "id-1" "g-1" none
        "hello" none none).1.s3Objects = exampleWorld.s3Objects) :=
  ⟨by decide,
   send_small_verbatim examplePrims exampleClient exampleWorld
     "id-1" "g-1" "hello" none none (by decide)⟩

/-- The pointer-detection conditions exactly as the specification words
them: the body parses as structured data, AND the result is a two-element
ordered sequence, AND element 0 equals the fixed type-tag constant, AND
element 1 is a keyed mapping containing both the bucket-name and
object-key fields. -/
def SpecPointerShape (prims : Prims) (body : String) : Prop :=
  ∃ v, prims.loads body = some v ∧
    ∃ e0 e1, v = Json.arr [e0, e1] ∧
      e0 = Json.str "com.amazon.sqs.javamessaging.MessageS3Pointer" ∧
      ∃ kvs, e1 = Json.obj kvs ∧
        (∃ x, ("s3BucketName", x) ∈ kvs) ∧ (∃ x, ("s3Key", x) ∈ kvs)

/-- Key membership as the code tests it agrees with membership of an entry
carrying that key. -/
theorem hasKey_iff (kvs : List (String × Json)) (key : String) :
    hasKey kvs key = true ↔ ∃ x, (key, x) ∈ kvs := by
  constructor
  · intro h
    rcases List.any_eq_true.mp h with ⟨kv, hmem, hk⟩
    rcases kv with ⟨k, v⟩
    have hk' : k = key := by simpa using hk
    subst hk'
    exact ⟨v, hmem⟩
  · rintro ⟨x, hx⟩
    exact List.any_eq_true.mpr ⟨(key, x), hx, by simp⟩

/-- Python equality of a parsed value with a string literal holds exactly
for that string value. -/
theorem jsonEqStr_iff (v : Json) (s : String) :
    jsonEqStr v s = true ↔ v = Json.str s := by
  cases v <;> simp [jsonEqStr]

/-- C3: `is_s3_pointer` returns true iff the body parses as structured
data, the result is a two-element sequence, element 0 equals the type-tag
constant, and element 1 is a mapping containing both the `s3BucketName`
and `s3Key` fields; every parse failure or structural mismatch yields
false, and the predicate is total (no error is ever raised). -/
theorem is_s3_pointer_iff_spec (prims : Prims) (message : Message) :
    is_s3_pointer prims message = true ↔
      SpecPointerShape prims message.body := by
  unfold is_s3_pointer SpecPointerShape
  cases hl : prims.loads message.body with
  | none => simp
  | some v =>
    cases v with
    | str s => simp
    | num n => simp
    | bool b => simp
    | null => simp
    | obj kvs => simp
    | arr xs =>
      cases xs with
      | nil => simp
      | cons e0 tl =>
        cases tl with
        | nil => simp
        | cons e1 tl2 =>
          cases tl2 with
          | cons e2 tl3 => simp
          | nil =>
            cases e1 with
            | obj kvs =>
              simp [jsonEqStr_iff, hasKey_iff, and_assoc]
            | str s => simp [jsonEqStr_iff]
            | num n => simp [jsonEqStr_iff]
            | bool b => simp [jsonEqStr_iff]
            | null => simp [jsonEqStr_iff]
            | arr ys => simp [jsonEqStr_iff]

/-- C4: round trip. For a payload strictly above the threshold, sending it
(into an initially empty queue) and then receiving — with the blob store
faithfully returning what was put — yields exactly one message whose
resolved body is the original payload, byte for byte. The `hloads`
hypothesis states that the structured-data parser inverts the serializer
on the pointer record, the round-trip property of the external `json`
library. -/
theorem send_receive_round_trip (prims : Prims) (c : BigSqsClient)
    (w : World) (payload_id fresh_group_id handle message : String)
    (attributes : Option (List (String × String)))
    (message_group_id : Option String)
    (hbig : utf8len message > c.size_threshold)
    (hq : w.queue = [])
    (hloads : prims.loads (dumps (s3PointerJson c.bucket_name payload_id))
      = some (s3PointerJson c.bucket_name payload_id)) :
    ∃ m, ((receive_messages prims c
        (send_message prims c w payload_id fresh_group_id none message
          attributes message_group_id).1
        1 none [handle]).2.2 = Except.ok [m]) ∧ m.body = message := by
  refine ⟨⟨message, handle, prims.md5hex message, attributes.getD []⟩, ?_, rfl⟩
  simp only [s3PointerJson] at hloads
  simp [send_message, receive_messages, resolvePointers, is_s3_pointer,
        hbig, hq, hloads, s3PointerJson, jsonEqStr, hasKey, dictGet, s3Str,
        findObj, putObj]

/-- Witness for C4: threshold 10, payload "hello world!" (12 bytes),
parser recognizing the serialized pointer. -/
theorem send_receive_round_trip_witness :
    (utf8len "hello world!" > exampleClient.size_threshold ∧
     exampleWorld.queue = [] ∧
     examplePrims.loads (dumps (s3PointerJson "mybucket" "id-1"))
       = some (s3PointerJson "mybucket" "id-1")) ∧
    ∃ m, ((receive_messages examplePrims exampleClient
        (send_message examplePrims exampleClient exampleWorld "id-1" "g-1"
          none "hello world!" none none).1
        1 none ["h1"]).2.2 = Except.ok [m]) ∧ m.body = "hello world!" :=
  ⟨⟨by decide, rfl, rfl⟩,
   send_receive_round_trip examplePrims exampleClient exampleWorld
     "id-1" "g-1" "h1" "hello world!" none none
     (by decide) rfl rfl⟩

/-- Example adapter state whose binding table maps handle "h1" to the blob
location ("b", "k"). -/
def exampleBoundClient : BigSqsClient :=
  ⟨"qurl", "mybucket", 10, [("h1", Json.str "b", Json.str "k")]⟩

/-- C5: acknowledging a handle bound by a prior resolving receive issues
the queue delete followed by a blob delete at the bound (bucket, key);
acknowledging an unbound handle issues only the queue delete and no
blob-store request. (A binding created by a receive that resolved
successfully always holds string values, hence the `Json.str` form.) -/
theorem delete_message_blob_cleanup (c : BigSqsClient) (w : World)
    (handle : String) :
    (∀ bucket key,
      lookupHandle c.receipt_handle_lookup handle
        = some (Json.str bucket, Json.str key) →
      (delete_message c w none handle).2.1.events
        = w.events ++ [Event.sqsDelete c.queue_url handle,
                       Event.s3Delete bucket key]) ∧
    (lookupHandle c.receipt_handle_lookup handle = none →
      (delete_message c w none handle).2.1.events
        = w.events ++ [Event.sqsDelete c.queue_url handle]) := by
  constructor
  · intro bucket key hb
    simp [delete_message, hb, s3Str]
  · intro hn
    simp [delete_message, hn]

/-- Witness for C5: a bound handle triggers queue delete + blob delete; an
unbound one only the queue delete. -/
theorem delete_message_blob_cleanup_witness :
    (lookupHandle exampleBoundClient.receipt_handle_lookup "h1"
       = some (Json.str "b", Json.str "k") ∧
     (delete_message exampleBoundClient exampleWorld none "h1").2.1.events
       = exampleWorld.events ++
         [Event.sqsDelete "qurl" "h1", Event.s3Delete "b" "k"]) ∧
    (lookupHandle exampleClient.receipt_handle_lookup "h2" = none ∧
     (delete_message exampleClient exampleWorld none "h2").2.1.events
       = exampleWorld.events ++ [Event.sqsDelete "qurl" "h2"]) :=
  ⟨⟨rfl, (delete_message_blob_cleanup exampleBoundClient exampleWorld
            "h1").1 "b" "k" rfl⟩,
   ⟨rfl, (delete_message_blob_cleanup exampleClient exampleWorld
            "h2").2 rfl⟩⟩

/-- C6 counterexample: with handle "h1" bound to ("b", "k"), the
acknowledge completes successfully (queue delete and blob delete both
issued), yet the binding-table entry for "h1" is still present afterwards —
the code never removes entries. -/
theorem delete_message_entry_removed_cex :
    (delete_message exampleBoundClient exampleWorld none "h1").2.2
      = Except.ok () ∧
    lookupHandle (delete_message exampleBoundClient exampleWorld none
        "h1").1.receipt_handle_lookup "h1"
      = some (Json.str "b", Json.str "k") :=
  ⟨rfl, rfl⟩

/-- C6 amended: after a successful acknowledge of a bound handle (queue
delete and blob delete both succeed), the binding table is left exactly as
it was — the entry for the handle is NOT removed. -/
theorem delete_message_keeps_binding (c : BigSqsClient) (w : World)
    (handle bucket key : String)
    (hb : lookupHandle c.receipt_handle_lookup handle
      = some (Json.str bucket, Json.str key)) :
    (delete_message c w none handle).2.2 = Except.ok () ∧
    (delete_message c w none handle).1.receipt_handle_lookup
      = c.receipt_handle_lookup := by
  simp [delete_message, hb, s3Str]

/-- Witness for the amended C6. -/
theorem delete_message_keeps_binding_witness :
    lookupHandle exampleBoundClient.receipt_handle_lookup "h1"
      = some (Json.str "b", Json.str "k") ∧
    ((delete_message exampleBoundClient exampleWorld none "h1").2.2
       = Except.ok () ∧
     (delete_message exampleBoundClient exampleWorld none
        "h1").1.receipt_handle_lookup
       = exampleBoundClient.receipt_handle_lookup) :=
  ⟨rfl, delete_message_keeps_binding exampleBoundClient exampleWorld
          "h1" "b" "k" rfl⟩

/-- C7: the queue delete is attempted first; if the underlying client
raises, the error propagates to the caller, no blob-store request is
issued, and the binding table (indeed the whole adapter state) is left
unchanged — the only event recorded is the attempted queue delete. -/
theorem delete_message_queue_failure_aborts (c : BigSqsClient) (w : World)
    (handle : String) (e : TransportErr) :
    delete_message c w (some e) handle
      = (c,
         { w with events := w.events ++
             [Event.sqsDelete c.queue_url handle] },
         Except.error e) :=
  rfl

/-- A successful underlying send yields the queue acknowledgement for the
drawn identifier and the outgoing payload. -/
theorem send_message_snd_ok (prims : Prims) (c : BigSqsClient) (w : World)
    (pid gid msg : String) (attrs : Option (List (String × String)))
    (mgid : Option String) :
    (send_message prims c w pid gid none msg attrs mgid).2
      = Except.ok ⟨pid, prims.md5hex
          (if utf8len msg > c.size_threshold
           then dumps (s3PointerJson c.bucket_name pid) else msg)⟩ :=
  rfl

/-- A failing underlying send propagates the error unchanged. -/
theorem send_message_snd_error (prims : Prims) (c : BigSqsClient)
    (w : World) (pid gid msg : String) (e : TransportErr)
    (attrs : Option (List (String × String))) (mgid : Option String) :
    (send_message prims c w pid gid (some e) msg attrs mgid).2
      = Except.error e :=
  rfl

/-- One unfolding step of `send_messages`. -/
theorem send_messages_cons (prims : Prims) (c : BigSqsClient) (w : World)
    (it : SendItem) (rest : List SendItem) :
    send_messages prims c w (it :: rest)
      = match send_message prims c w it.payload_id it.fresh_group_id
          it.sqsFail it.message it.attributes it.message_group_id with
        | (w1, Except.error e) => (w1, Except.error e)
        | (w1, Except.ok ack) =>
          match send_messages prims c w1 rest with
          | (w2, Except.error e) => (w2, Except.error e)
          | (w2, Except.ok acks) => (w2, Except.ok (ack :: acks)) :=
  rfl

/-- When the head item's underlying send succeeds, the final world of the
batch is the final world of the rest of the batch run after it. -/
theorem send_messages_fst_cons_ok (prims : Prims) (c : BigSqsClient)
    (w : World) (it : SendItem) (rest : List SendItem)
    (hit : it.sqsFail = none) :
    (send_messages prims c w (it :: rest)).1
      = (send_messages prims c (send_message prims c w it.payload_id
          it.fresh_group_id none it.message it.attributes
          it.message_group_id).1 rest).1 := by
  rw [send_messages_cons, hit]
  rcases hS : send_message prims c w it.payload_id it.fresh_group_id none
      it.message it.attributes it.message_group_id with ⟨w1, r1⟩
  have hr1 := send_message_snd_ok prims c w it.payload_id it.fresh_group_id
      it.message it.attributes it.message_group_id
  rw [hS] at hr1
  simp only at hr1
  subst hr1
  rcases hR : send_messages prims c w1 rest with ⟨w2, r2⟩
  cases r2 <;> simp [hR]

/-- C8 (amended): `send_messages` applies `send_message` to the items in
input order. When every underlying send succeeds it returns one
acknowledgement per item, in input order. When the send of one item fails,
the earlier items have already been sent (the final state is exactly the
state after sending them and attempting the failing item), the later items
are never attempted, and the error alone is raised to the caller — the
acknowledgements gathered for the earlier items are discarded, not
returned. -/
theorem send_messages_batch_semantics (prims : Prims) (c : BigSqsClient) :
    (∀ (w : World) (items : List SendItem),
      (∀ it ∈ items, it.sqsFail = none) →
      ∃ acks, (send_messages prims c w items).2 = Except.ok acks ∧
        acks.map SendAck.dedupId = items.map SendItem.payload_id) ∧
    (∀ (w : World) (pre : List SendItem) (bad : SendItem)
        (post : List SendItem) (e : TransportErr),
      (∀ it ∈ pre, it.sqsFail = none) → bad.sqsFail = some e →
      send_messages prims c w (pre ++ bad :: post)
        = ((send_message prims c (send_messages prims c w pre).1
              bad.payload_id bad.fresh_group_id (some e) bad.message
              bad.attributes bad.message_group_id).1,
           Except.error e)) := by
  constructor
  · intro w items
    induction items generalizing w with
    | nil => exact fun _ => ⟨[], rfl, rfl⟩
    | cons it rest ih =>
      intro hall
      have hit : it.sqsFail = none := hall it (List.mem_cons_self it rest)
      have hrest : ∀ x ∈ rest, x.sqsFail = none :=
        fun x hx => hall x (List.mem_cons_of_mem it hx)
      rcases hS : send_message prims c w it.payload_id it.fresh_group_id
          none it.message it.attributes it.message_group_id with ⟨w1, r1⟩
      have hr1 := send_message_snd_ok prims c w it.payload_id
          it.fresh_group_id it.message it.attributes it.message_group_id
      rw [hS] at hr1
      simp only at hr1
      subst hr1
      obtain ⟨acks, hacks, hmap⟩ := ih w1 hrest
      rcases hR : send_messages prims c w1 rest with ⟨w2, r2⟩
      rw [hR] at hacks
      simp only at hacks
      subst hacks
      refine ⟨(⟨it.payload_id, prims.md5hex
          (if utf8len it.message > c.size_threshold
           then dumps (s3PointerJson c.bucket_name it.payload_id)
           else it.message)⟩ : SendAck) :: acks, ?_, ?_⟩
      · rw [send_messages_cons, hit, hS]
        simp [hR]
      · simp [hmap]
  · intro w pre bad post e hpre hbad
    induction pre generalizing w with
    | nil =>
      simp only [List.nil_append]
      rw [send_messages_cons, hbad]
      rcases hS : send_message prims c w bad.payload_id bad.fresh_group_id
          (some e) bad.message bad.attributes bad.message_group_id
        with ⟨w1, r1⟩
      have hr1 := send_message_snd_error prims c w bad.payload_id
          bad.fresh_group_id bad.message e bad.attributes bad.message_group_id
      rw [hS] at hr1
      simp only at hr1
      subst hr1
      simp [send_messages, hS]
    | cons p pre' ih =>
      have hp : p.sqsFail = none := hpre p (List.mem_cons_self p pre')
      have hpre' : ∀ x ∈ pre', x.sqsFail = none :=
        fun x hx => hpre x (List.mem_cons_of_mem p hx)
      rw [List.cons_append, send_messages_cons, hp]
      rcases hS : send_message prims c w p.payload_id p.fresh_group_id none
          p.message p.attributes p.message_group_id with ⟨w1, r1⟩
      have hr1 := send_message_snd_ok prims c w p.payload_id
          p.fresh_group_id p.message p.attributes p.message_group_id
      rw [hS] at hr1
      simp only at hr1
      subst hr1
      rw [send_messages_fst_cons_ok prims c w p pre' hp, hS]
      simp [ih w1 hpre']

/-- Items for a failing batch: the second item's underlying SQS send
fails, the first and third would succeed. -/
def exampleBatchFail : List SendItem :=
  [⟨"m1", none, none, "id-1", "g-1", none⟩,
   ⟨"m2", none, none, "id-2", "g-2", some (TransportErr.err "boom")⟩,
   ⟨"m3", none, none, "id-3", "g-3", none⟩]

/-- C8 counterexample: when item 2 of 3 fails, the caller receives only
the raised error — no per-item results at all, in particular not the
acknowledgement already gathered for item 1 — even though the trace shows
item 1 sent, item 2 attempted, and item 3 never attempted. -/
theorem send_messages_partial_results_cex :
    (send_messages examplePrims exampleClient exampleWorld
        exampleBatchFail).2
      = Except.error (TransportErr.err "boom") ∧
    (send_messages examplePrims exampleClient exampleWorld
        exampleBatchFail).1.events
      = [Event.sqsSend "qurl" "id-1" "g-1" [] "m1",
         Event.sqsSend "qurl" "id-2" "g-2" [] "m2"] :=
  ⟨rfl, rfl⟩

/-- Witness for the amended C8: both branches instantiated — a 2-item
all-success batch returns both acknowledgements in order, and the failing
3-item batch raises the error with item 3 unattempted. -/
theorem send_messages_batch_semantics_witness :
    ((∀ it ∈ [(⟨"m1", none, none, "id-1", "g-1", none⟩ : SendItem),
              ⟨"m2", none, none, "id-2", "g-2", none⟩], it.sqsFail = none) ∧
     ∃ acks, (send_messages examplePrims exampleClient exampleWorld
        [⟨"m1", none, none, "id-1", "g-1", none⟩,
         ⟨"m2", none, none, "id-2", "g-2", none⟩]).2 = Except.ok acks ∧
       acks.map SendAck.dedupId = ["id-1", "id-2"]) ∧
    ((∀ it ∈ [(⟨"m1", none, none, "id-1", "g-1", none⟩ : SendItem)],
        it.sqsFail = none) ∧
     send_messages examplePrims exampleClient exampleWorld exampleBatchFail
       = ((send_message examplePrims exampleClient
             (send_messages examplePrims exampleClient exampleWorld
               [⟨"m1", none, none, "id-1", "g-1", none⟩]).1
             "id-2" "g-2" (some (TransportErr.err "boom")) "m2" none none).1,
          Except.error (TransportErr.err "boom"))) :=
  ⟨⟨by simp, (send_messages_batch_semantics examplePrims exampleClient).1
      exampleWorld _ (by simp)⟩,
   ⟨by simp, (send_messages_batch_semantics examplePrims exampleClient).2
      exampleWorld [⟨"m1", none, none, "id-1", "g-1", none⟩]
      ⟨"m2", none, none, "id-2", "g-2", some (TransportErr.err "boom")⟩
      [⟨"m3", none, none, "id-3", "g-3", none⟩]
      (TransportErr.err "boom") (by simp) rfl⟩⟩

/-- Every message the modelled queue service delivers carries the service
hash of its (still unresolved) body. -/
theorem zipWith_deliver_md5 (prims : Prims) :
    ∀ (es : List QueueEntry) (hs : List String) (m : Message),
      m ∈ List.zipWith (fun (e : QueueEntry) (h : String) =>
        ({ body := e.body, receiptHandle := h,
           md5OfBody := prims.md5hex e.body, attrs := e.attrs } : Message))
        es hs →
      m.md5OfBody = prims.md5hex m.body := by
  intro es
  induction es with
  | nil => intro hs m hm; simp at hm
  | cons e es ih =>
    intro hs m hm
    cases hs with
    | nil => simp at hm
    | cons h hs =>
      rcases List.mem_cons.mp (by simpa using hm) with h1 | h2
      · subst h1; rfl
      · exact ih hs m h2

/-- The resolution loop preserves hash/body consistency: if every incoming
and every accumulated message carries the hash of its own body, so does
every message in a successful output (a resolved message gets the hash of
the freshly fetched blob content that becomes its body). -/
theorem resolvePointers_md5_invariant (prims : Prims) :
    ∀ (msgs : List Message) (c : BigSqsClient) (w : World)
      (acc : List Message) (out : List Message),
      (∀ m ∈ msgs, m.md5OfBody = prims.md5hex m.body) →
      (∀ m ∈ acc, m.md5OfBody = prims.md5hex m.body) →
      (resolvePointers prims c w msgs acc).2.2 = Except.ok out →
      ∀ m ∈ out, m.md5OfBody = prims.md5hex m.body := by
  intro msgs
  induction msgs with
  | nil =>
    intro c w acc out _ hacc hout
    simp [resolvePointers] at hout
    subst hout
    intro m hm
    exact hacc m (by simpa using hm)
  | cons msg rest ih =>
    intro c w acc out hmsgs hacc hout
    have hmsg : msg.md5OfBody = prims.md5hex msg.body :=
      hmsgs msg (List.mem_cons_self _ _)
    have hrest : ∀ m ∈ rest, m.md5OfBody = prims.md5hex m.body :=
      fun m hm => hmsgs m (List.mem_cons_of_mem _ hm)
    by_cases hp : is_s3_pointer prims msg = true
    · simp only [resolvePointers, hp, if_true] at hout
      split at hout
      case _ kvs =>
        split at hout
        case _ bname bkey hbn hbk =>
          split at hout
          case _ bucket key hb hk =>
            split at hout
            case _ content hc =>
              refine ih _ _ _ out hrest ?_ hout
              intro m hm
              rcases List.mem_cons.mp hm with h1 | h2
              · subst h1; rfl
              · exact hacc m h2
            case _ hc => simp at hout
          case _ hb hk => simp at hout
        case _ hbn hbk => simp at hout
      case _ hshape => simp at hout
    · simp only [resolvePointers, hp, if_false] at hout
      refine ih _ _ _ out hrest ?_ hout
      intro m hm
      rcases List.mem_cons.mp hm with h1 | h2
      · subst h1; exact hmsg
      · exact hacc m h2

/-- C9: every message in a successful receive carries, in its MD5OfBody
field, the hash of the body the caller actually gets: for a resolved
pointer that is the hash of the externalized bytes fetched from the blob
store (which also become the body), not a hash of the pointer record. -/
theorem receive_md5_consistent (prims : Prims) (c : BigSqsClient)
    (w : World) (maxN : Nat) (attrs : Option (List String))
    (handles : List String) (out : List Message)
    (h : (receive_messages prims c w maxN attrs handles).2.2
      = Except.ok out) :
    ∀ m ∈ out, m.md5OfBody = prims.md5hex m.body := by
  simp only [receive_messages] at h
  refine resolvePointers_md5_invariant prims _ _ _ [] out ?_ (by simp) h
  intro m hm
  exact zipWith_deliver_md5 prims _ _ m hm

/-- Example world whose queue holds one pointer message referring to the
blob ("mybucket", "id-1") with content "PAYLOAD". -/
def exampleQueueWorld : World :=
  ⟨[("mybucket", "id-1", "PAYLOAD")],
   [⟨"id-1", "g-1", [], dumps examplePtr⟩], []⟩

/-- The resolved message appearing in the C9 witness. -/
def examplePayloadMsg : Message :=
  ⟨"PAYLOAD", "h1", "md5:PAYLOAD", []⟩

/-- Witness for C9: receiving the pointer message yields the resolved
body "PAYLOAD" carrying the hash of "PAYLOAD", not of the pointer. -/
theorem receive_md5_consistent_witness :
    (receive_messages examplePrims exampleClient exampleQueueWorld 1 none
        ["h1"]).2.2
      = Except.ok [examplePayloadMsg] ∧
    examplePayloadMsg.md5OfBody
      = examplePrims.md5hex examplePayloadMsg.body :=
  ⟨rfl,
   receive_md5_consistent examplePrims exampleClient exampleQueueWorld 1
     none ["h1"] _ rfl examplePayloadMsg (by decide)⟩

/-- A key present under `dictGet` is present for the membership test. -/
theorem hasKey_of_dictGet (kvs : List (String × Json)) (key : String)
    (x : Json) (h : dictGet kvs key = some x) : hasKey kvs key = true := by
  induction kvs with
  | nil => simp [dictGet] at h
  | cons kv rest ih =>
    by_cases hp : kv.1 = key
    · simp [hasKey, hp]
    · have h' : dictGet rest key = some x := by
        simpa [dictGet, List.find?_cons, hp] using h
      simp [hasKey, hp] at ih ⊢
      exact ih h'

/-- A correctly tagged two-element record whose mapping has both keys is
detected as a pointer. -/
theorem is_s3_pointer_true_of (prims : Prims) (m : Message)
    (kvs : List (String × Json))
    (hloads : prims.loads m.body = some (Json.arr
      [Json.str "com.amazon.sqs.javamessaging.MessageS3Pointer",
       Json.obj kvs]))
    (hb : hasKey kvs "s3BucketName" = true)
    (hk : hasKey kvs "s3Key" = true) :
    is_s3_pointer prims m = true := by
  simp [is_s3_pointer, hloads, jsonEqStr, hb, hk]

/-- C10: resolving a pointer message binds its delivery handle to exactly
the bucket and key named in the received pointer record itself — not to
the adapter's configured container — and the blob fetch, as well as a
later blob delete through `delete_message`, target that recorded bucket
and key. -/
theorem receive_binding_uses_pointer_location (prims : Prims)
    (c : BigSqsClient) (w : World) (entry : QueueEntry)
    (rest : List QueueEntry) (handle bs ks v : String)
    (kvs : List (String × Json))
    (hq : w.queue = entry :: rest)
    (hloads : prims.loads entry.body = some (Json.arr
      [Json.str "com.amazon.sqs.javamessaging.MessageS3Pointer",
       Json.obj kvs]))
    (hb : dictGet kvs "s3BucketName" = some (Json.str bs))
    (hk : dictGet kvs "s3Key" = some (Json.str ks))
    (hobj : findObj w.s3Objects bs ks = some v) :
    (receive_messages prims c w 1 none [handle]).1.receipt_handle_lookup
      = (handle, Json.str bs, Json.str ks) :: c.receipt_handle_lookup ∧
    (receive_messages prims c w 1 none [handle]).2.1.events
      = w.events ++ [Event.sqsReceive c.queue_url 1 ["All"] 20,
                     Event.s3Get bs ks] ∧
    (delete_message (receive_messages prims c w 1 none [handle]).1
        (receive_messages prims c w 1 none [handle]).2.1 none
        handle).2.1.events
      = w.events ++ [Event.sqsReceive c.queue_url 1 ["All"] 20,
                     Event.s3Get bs ks,
                     Event.sqsDelete c.queue_url handle,
                     Event.s3Delete bs ks] := by
  have hp := is_s3_pointer_true_of prims
    ⟨entry.body, handle, prims.md5hex entry.body, entry.attrs⟩ kvs hloads
    (hasKey_of_dictGet _ _ _ hb) (hasKey_of_dictGet _ _ _ hk)
  refine ⟨?_, ?_, ?_⟩ <;>
    simp [receive_messages, resolvePointers, hq, hp, hloads, hb, hk, hobj,
          s3Str, delete_message, lookupHandle]

/-- A pointer record naming a container different from the configured
one. -/
def foreignPtr : Json := s3PointerJson "other-bucket" "k-9"

/-- Primitives recognizing the serialized foreign pointer. -/
def foreignPrims : Prims :=
  ⟨fun s => if s = dumps foreignPtr then some foreignPtr else none,
   fun s => "md5:" ++ s⟩

/-- World whose queue holds the foreign-pointer message and whose store
holds the foreign blob. -/
def foreignWorld : World :=
  ⟨[("other-bucket", "k-9", "SECRET")],
   [⟨"id-7", "g-7", [], dumps foreignPtr⟩], []⟩

/-- Witness for C10: with the adapter configured for "mybucket", a pointer
naming "other-bucket" is bound, fetched and deleted at "other-bucket". -/
theorem receive_binding_uses_pointer_location_witness :
    ("other-bucket" ≠ exampleClient.bucket_name ∧
     foreignWorld.queue = [⟨"id-7", "g-7", [], dumps foreignPtr⟩] ∧
     foreignPrims.loads (dumps foreignPtr) = some (Json.arr
       [Json.str "com.amazon.sqs.javamessaging.MessageS3Pointer",
        Json.obj [("s3BucketName", Json.str "other-bucket"),
                  ("s3Key", Json.str "k-9")]]) ∧
     findObj foreignWorld.s3Objects "other-bucket" "k-9" = some "SECRET") ∧
    ((receive_messages foreignPrims exampleClient foreignWorld 1 none
        ["h9"]).1.receipt_handle_lookup
      = [("h9", Json.str "other-bucket", Json.str "k-9")] ∧
     (receive_messages foreignPrims exampleClient foreignWorld 1 none
        ["h9"]).2.1.events
      = foreignWorld.events ++ [Event.sqsReceive "qurl" 1 ["All"] 20,
                                Event.s3Get "other-bucket" "k-9"] ∧
     (delete_message (receive_messages foreignPrims exampleClient
          foreignWorld 1 none ["h9"]).1
        (receive_messages foreignPrims exampleClient foreignWorld 1 none
          ["h9"]).2.1 none "h9").2.1.events
      = foreignWorld.events ++ [Event.sqsReceive "qurl" 1 ["All"] 20,
                                Event.s3Get "other-bucket" "k-9",
                                Event.sqsDelete "qurl" "h9",
                                Event.s3Delete "other-bucket" "k-9"]) :=
  ⟨⟨by decide, rfl, rfl, rfl⟩,
   receive_binding_uses_pointer_location foreignPrims exampleClient
     foreignWorld ⟨"id-7", "g-7", [], dumps foreignPtr⟩ [] "h9"
     "other-bucket" "k-9" "SECRET"
     [("s3BucketName", Json.str "other-bucket"),
      ("s3Key", Json.str "k-9")]
     rfl rfl rfl rfl rfl⟩

end BigSqs
